import Mathlib

/-!
Verification of the quantstock trading-simulation kernel against its
specification.  The Python source is shallowly embedded: floats become `ℚ`
(exact arithmetic), Python dicts keyed by symbol become association lists,
and each mutating method becomes a state-passing function.  The embedding
models the configuration the spec's scenarios address: no external
market-data provider is attached (the code then falls back to average cost
/ requested price), and the risk manager uses its default
`percent_risk` sizing method.
-/

namespace QuantStock

/-- Association-list lookup, modelling Python `d.get(k)` / `k in d`. -/
def assocFind {α : Type} (l : List (String × α)) (k : String) : Option α :=
  match l with
  | [] => none
  | (k', v) :: rest => if k' = k then some v else assocFind rest k

/-- Association-list update, modelling Python `d[k] = v`
(in-place update when the key exists, append otherwise). -/
def assocInsert {α : Type} (l : List (String × α)) (k : String) (v : α) :
    List (String × α) :=
  match l with
  | [] => [(k, v)]
  | (k', v') :: rest =>
      if k' = k then (k', v) :: rest else (k', v') :: assocInsert rest k v

/-- Association-list removal, modelling Python `d.pop(k, default)`. -/
def assocErase {α : Type} (l : List (String × α)) (k : String) :
    List (String × α) :=
  match l with
  | [] => []
  | (k', v') :: rest =>
      if k' = k then rest else (k', v') :: assocErase rest k

/-- Python `float(int(q))`: truncation toward zero. -/
def pyInt (q : ℚ) : ℚ := if 0 ≤ q then (⌊q⌋ : ℤ) else -(⌊-q⌋ : ℤ)

/-! ## Portfolio (src/portfolio_module/portfolio.py) -/

/-- Fill actions accepted by `Portfolio.update_fill`. -/
inductive FAction : Type
  | buy
  | sell
  deriving DecidableEq, Repr

/-- One entry of `Portfolio.positions`.  The Python position dict is created
with the first four keys; `current_price`, `market_value` and
`unrealized_pnl` are added by `_update_market_values` and read with
`.get(_, 0)` before that, so they start at 0 here. -/
structure Position : Type where
  quantity : ℚ
  avg_price : ℚ
  total_cost : ℚ
  realized_pnl : ℚ
  current_price : ℚ := 0
  market_value : ℚ := 0
  unrealized_pnl : ℚ := 0
  deriving DecidableEq, Repr

/-- A fill event as consumed by `Portfolio.update_fill`. -/
structure FillEvent : Type where
  symbol : String
  action : FAction
  quantity : ℚ
  price : ℚ
  commission : ℚ
  deriving DecidableEq, Repr

/-- One entry of `Portfolio.trade_log` (the fill plus the two fields the
code adds when appending). -/
structure TradeRecord : Type where
  fill : FillEvent
  realized_pnl_trade : ℚ
  cash_after_trade : ℚ
  deriving DecidableEq, Repr

/-- One entry of `Portfolio.portfolio_history`. -/
structure HistoryRecord : Type where
  total_value : ℚ
  cash : ℚ
  positions_value : ℚ
  deriving DecidableEq, Repr

/-- The `Portfolio` ledger state. -/
structure Portfolio : Type where
  cash : ℚ
  positions : List (String × Position)
  trade_log : List TradeRecord
  portfolio_history : List HistoryRecord
  deriving DecidableEq, Repr

/-- Embeds `Portfolio._update_market_values` on a single position, with no
market-data provider: the current price falls back to the average cost,
and a zero-quantity position gets zeroed market fields. -/
def mvUpdate (pos : Position) : Position :=
  if pos.quantity = 0 then
    { pos with
      current_price := 0,
      market_value := 0,
      unrealized_pnl := 0 }
  else
    let current_price := pos.avg_price
    { pos with
      current_price := current_price,
      market_value := pos.quantity * current_price,
      unrealized_pnl := (current_price - pos.avg_price) * pos.quantity }

/-- Embeds `Portfolio._update_market_values` over all positions. -/
def updateMarketValues (p : Portfolio) : Portfolio :=
  { p with positions := p.positions.map (fun kv => (kv.1, mvUpdate kv.2)) }

/-- Embeds `Portfolio.get_total_value`: cash plus the market value of all
positions (the code refreshes market values first). -/
def getTotalValue (p : Portfolio) : ℚ :=
  let p' := updateMarketValues p
  p'.cash + (p'.positions.map (fun kv => kv.2.market_value)).sum

/-- Embeds `Portfolio._record_portfolio_value`: appends a snapshot of the current
total value (computing it refreshes market values in place). -/
def recordPortfolioValue (p : Portfolio) : Portfolio :=
  let tv := getTotalValue p
  let p' := updateMarketValues p
  { p' with portfolio_history := p'.portfolio_history ++
      [{ total_value := tv, cash := p'.cash, positions_value := tv - p'.cash }] }

/-- Embeds `Portfolio.update_fill`.  Mirrors the source: validity check, cash
update, position update (with the cash revert on an oversized or
position-less SELL), trade-log append, then market-value refresh and
history snapshot. -/
def Portfolio.update_fill (p : Portfolio) (f : FillEvent) : Portfolio :=
  -- `if not all([symbol, action, quantity > 0, price > 0]): return`
  if ¬(f.symbol ≠ "" ∧ 0 < f.quantity ∧ 0 < f.price) then p
  else
    match f.action with
    | .buy =>
        let cash₁ := p.cash - (f.quantity * f.price + f.commission)
        -- create the position record on a first BUY
        let positions₁ :=
          match assocFind p.positions f.symbol with
          | none => assocInsert p.positions f.symbol
              { quantity := 0, avg_price := 0, total_cost := 0,
                realized_pnl := 0 }
          | some _ => p.positions
        match assocFind positions₁ f.symbol with
        | none => { p with cash := cash₁, positions := positions₁ }
        | some pos =>
            let new_total_cost := pos.quantity * pos.avg_price +
              f.quantity * f.price
            let quantity' := pos.quantity + f.quantity
            let pos' := { pos with
              quantity := quantity',
              total_cost := pos.total_cost + f.quantity * f.price,
              avg_price := if 0 < quantity' then new_total_cost / quantity'
                           else 0 }
            let p₂ := { p with
              cash := cash₁,
              positions := assocInsert positions₁ f.symbol pos',
              trade_log := p.trade_log ++
                [{ fill := f, realized_pnl_trade := 0,
                   cash_after_trade := cash₁ }] }
            recordPortfolioValue (updateMarketValues p₂)
    | .sell =>
        let cash₁ := p.cash + (f.quantity * f.price - f.commission)
        match assocFind p.positions f.symbol with
        | none =>
            -- selling a symbol not in positions: revert cash and return
            { p with cash := cash₁ - (f.quantity * f.price - f.commission) }
        | some pos =>
            if pos.quantity < f.quantity then
              -- oversized sell: revert cash and return
              { p with cash := cash₁ - (f.quantity * f.price - f.commission) }
            else
              let cost_of_sold_shares := pos.avg_price * f.quantity
              let proceeds := f.quantity * f.price
              let realized_pnl_this_trade :=
                proceeds - cost_of_sold_shares - f.commission
              let pos' := { pos with
                realized_pnl := pos.realized_pnl + realized_pnl_this_trade,
                quantity := pos.quantity - f.quantity,
                total_cost := pos.total_cost - cost_of_sold_shares }
              let p₂ := { p with
                cash := cash₁,
                positions := assocInsert p.positions f.symbol pos',
                trade_log := p.trade_log ++
                  [{ fill := f, realized_pnl_trade := realized_pnl_this_trade,
                     cash_after_trade := cash₁ }] }
              recordPortfolioValue (updateMarketValues p₂)

/-- The quantity currently held for a symbol (0 when no record exists). -/
def heldQuantity (p : Portfolio) (symbol : String) : ℚ :=
  match assocFind p.positions symbol with
  | none => 0
  | some pos => pos.quantity

/-- Embeds `Portfolio.get_position`: the record is returned only when the held
quantity is strictly positive (the refresh of market values it performs
does not change a positive position's quantity, so we return the refreshed
record as the code does). -/
def Portfolio.get_position (p : Portfolio) (symbol : String) :
    Option Position :=
  match assocFind p.positions symbol with
  | some pos =>
      if 0 < pos.quantity then
        assocFind (updateMarketValues p).positions symbol
      else none
  | none => none

/-! ## SimpleRiskManager (src/risk_module/simple_risk_manager.py)

The embedding covers the default `percent_risk` sizing method with no
external data provider attached (the data-driven volume/volatility
dampeners are then skipped by the code). -/

/-- Signal actions understood by `SimpleRiskManager.adjust_order_size`. -/
inductive SAction : Type
  | buy
  | sell
  | short
  | cover
  deriving DecidableEq, Repr

/-- The requested quantity of a signal: a number, the string `all`, or
absent. -/
inductive ReqQty : Type
  | absent
  | all
  | num (q : ℚ)
  deriving DecidableEq, Repr

/-- Mutable state of `SimpleRiskManager` (capital view, configured limits
and the per-symbol risk ledger). -/
structure RiskState : Type where
  initial_capital : ℚ
  current_capital : ℚ
  high_water_mark : ℚ
  max_risk_per_trade_pct : ℚ
  max_total_risk_pct : ℚ
  max_drawdown_limit_pct : ℚ
  max_order_value_pct : ℚ
  max_position_pct_asset : ℚ
  min_cash_balance_pct : ℚ
  current_total_risk_amount : ℚ
  positions_risk : List (String × ℚ)
  deriving DecidableEq, Repr

/-- A fresh `SimpleRiskManager` with the constructor's default
configuration values. -/
def mkRiskManager (initial_capital : ℚ) : RiskState :=
  { initial_capital := initial_capital
    current_capital := initial_capital
    high_water_mark := initial_capital
    max_risk_per_trade_pct := 2/100
    max_total_risk_pct := 5/100
    max_drawdown_limit_pct := 1/10
    max_order_value_pct := 1/10
    max_position_pct_asset := 2/10
    min_cash_balance_pct := 5/100
    current_total_risk_amount := 0
    positions_risk := [] }

/-- The part of a pushed portfolio snapshot the risk manager reads
(`total_value`, `cash`). -/
structure Snapshot : Type where
  total_value : ℚ
  cash : ℚ
  deriving DecidableEq, Repr

/-- Embeds `SimpleRiskManager.update_portfolio_state`: adopt the pushed total
value as current capital and raise the (monotonic) high-water mark. -/
def updatePortfolioState (s : RiskState) (ps : Snapshot) : RiskState :=
  let s₁ := { s with current_capital := ps.total_value }
  if s₁.high_water_mark < s₁.current_capital then
    { s₁ with high_water_mark := s₁.current_capital }
  else s₁

/-- Embeds `SimpleRiskManager._calculate_current_drawdown`. -/
def calculateCurrentDrawdown (s : RiskState) : ℚ :=
  if s.high_water_mark = 0 then 0
  else
    let drawdown := (s.high_water_mark - s.current_capital) / s.high_water_mark
    if 0 < drawdown then drawdown else 0

/-- Embeds `SimpleRiskManager._get_risk_amount_for_trade`. -/
def getRiskAmountForTrade (entry_price stop_loss_price quantity : ℚ) : ℚ :=
  if quantity ≤ 0 ∨ entry_price ≤ 0 ∨ stop_loss_price ≤ 0 then 0
  else |entry_price - stop_loss_price| * quantity

/-- Embeds `SimpleRiskManager._add_position_risk`. -/
def addPositionRisk (s : RiskState) (symbol : String) (risk_amount : ℚ) :
    RiskState :=
  if risk_amount ≤ 0 then s
  else
    let old := (assocFind s.positions_risk symbol).getD 0
    { s with
      current_total_risk_amount :=
        s.current_total_risk_amount - old + risk_amount
      positions_risk := assocInsert s.positions_risk symbol risk_amount }

/-- Embeds `SimpleRiskManager._remove_position_risk`. -/
def removePositionRisk (s : RiskState) (symbol : String) : RiskState :=
  let removed := (assocFind s.positions_risk symbol).getD 0
  { s with
    current_total_risk_amount := s.current_total_risk_amount - removed
    positions_risk := assocErase s.positions_risk symbol }

/-- Embeds `SimpleRiskManager.calculate_max_position_size` under `percent_risk`
sizing with no data provider.  Returns the refreshed state together with
the whole-share quantity.  Mirrors the source: risk budget capped by the
remaining total-risk budget, division by the per-unit risk, then clipping
by available cash (BUY only, with an early 0 return), by the per-asset
concentration limit and by the max single-order notional, and final
truncation to whole shares. -/
def calculateMaxPositionSize (s₀ : RiskState) (current_price : ℚ)
    (ps : Snapshot) (stop_loss_price : Option ℚ) (action : SAction) :
    RiskState × ℚ :=
  if current_price ≤ 0 then (s₀, 0)
  else
    let s := updatePortfolioState s₀ ps
    if s.max_drawdown_limit_pct ≤ calculateCurrentDrawdown s then (s, 0)
    else
      let capital_for_risk_calc := s.current_capital
      let risk_amount_per_trade :=
        capital_for_risk_calc * s.max_risk_per_trade_pct
      let remaining_total_risk_budget :=
        capital_for_risk_calc * s.max_total_risk_pct -
          s.current_total_risk_amount
      let risk_amount_for_this_trade :=
        min risk_amount_per_trade (max 0 remaining_total_risk_budget)
      if risk_amount_for_this_trade ≤ 0 then (s, 0)
      else
        match stop_loss_price with
        | none => (s, 0)
        | some stop =>
          if stop ≤ 0 then (s, 0)
          else if (action = .buy ∧ current_price ≤ stop) ∨
                  (action = .short ∧ stop ≤ current_price) then (s, 0)
          else
            let unit_risk := |current_price - stop|
            if unit_risk = 0 then (s, 0)
            else
              let quantity := risk_amount_for_this_trade / unit_risk
              let max_qty_by_asset_limit :=
                capital_for_risk_calc * s.max_position_pct_asset /
                  current_price
              let max_investment_from_cash :=
                ps.cash - capital_for_risk_calc * s.min_cash_balance_pct
              if action = .buy ∧ max_investment_from_cash ≤ 0 then (s, 0)
              else
                let quantity := if action = .buy then
                    min quantity (max_investment_from_cash / current_price)
                  else quantity
                let quantity := min quantity max_qty_by_asset_limit
                let max_qty_by_order_val_limit :=
                  capital_for_risk_calc * s.max_order_value_pct /
                    current_price
                let quantity := min quantity max_qty_by_order_val_limit
                (s, pyInt quantity)

/-- A signal/order as consumed by `adjust_order_size`. -/
structure SignalOrder : Type where
  action : SAction
  symbol : String
  price : ℚ
  stop_loss_price : Option ℚ
  quantity : ReqQty
  deriving DecidableEq, Repr

/-- The result of `adjust_order_size`: the refreshed risk state plus the
adjusted order fields the code sets. -/
structure AdjustedOrder : Type where
  state : RiskState
  quantity : ℚ
  reason : Option String
  calculated_risk : Option ℚ
  deriving DecidableEq, Repr

/-- Embeds `SimpleRiskManager.adjust_order_size` under `percent_risk` sizing.
BUY/SHORT: drawdown breaker first, then a valid stop loss is required,
the risk-based maximum is computed and the requested quantity is clipped
to it (minus the current holding); on a positive final quantity the
symbol's risk ledger entry is set.  SELL/COVER: clipped to the held
quantity and the symbol's risk allocation is removed on any exit. -/
def adjustOrderSize (s₀ : RiskState) (o : SignalOrder) (ps : Snapshot)
    (position_quantity : ℚ) : AdjustedOrder :=
  let s := updatePortfolioState s₀ ps
  if o.symbol = "" ∨ o.price ≤ 0 then
    { state := s, quantity := 0
      reason := some "Invalid order fields (action, symbol, price)."
      calculated_risk := none }
  else
    match o.action with
    | .buy | .short =>
      if s.max_drawdown_limit_pct ≤ calculateCurrentDrawdown s then
        { state := removePositionRisk s o.symbol, quantity := 0
          reason := some "Max drawdown limit reached."
          calculated_risk := none }
      else
        -- percent_risk sizing requires a valid stop loss in the signal
        if o.stop_loss_price = none ∨ o.stop_loss_price.getD 0 ≤ 0 then
          { state := removePositionRisk s o.symbol, quantity := 0
            reason :=
              some "percent_risk sizing requires valid stop_loss_price."
            calculated_risk := none }
        else
          let sized := calculateMaxPositionSize s o.price ps
            o.stop_loss_price o.action
          let s₁ := sized.1
          let max_total_allowable_qty := sized.2
          let holding_offset := if o.action = .buy then position_quantity
            else |position_quantity|
          let final_quantity₀ :=
            match o.quantity with
            | .num q =>
                max 0 (min q (max_total_allowable_qty - holding_offset))
            | .absent => max 0 (max_total_allowable_qty - holding_offset)
            | .all => 0    -- float("all") raises ValueError, caught as 0
          let final_quantity := pyInt final_quantity₀
          let calculated_risk :=
            if 0 < final_quantity ∧ o.stop_loss_price.getD 0 ≠ 0 then
              getRiskAmountForTrade o.price (o.stop_loss_price.getD 0)
                final_quantity
            else 0
          if 0 < final_quantity then
            { state := addPositionRisk s₁ o.symbol calculated_risk
              quantity := final_quantity
              reason := none
              calculated_risk := some calculated_risk }
          else
            { state := removePositionRisk s₁ o.symbol, quantity := 0
              reason := some "Calculated quantity is zero."
              calculated_risk := none }
    | .sell | .cover =>
      let qty_to_trade :=
        match o.quantity with
        | .all => position_quantity
        | .num q => min q position_quantity
        | .absent => 0   -- float(None) raises TypeError, caught as 0
      let final_quantity := pyInt (max 0 qty_to_trade)
      if position_quantity ≤ final_quantity ∧ 0 < position_quantity then
        { state := removePositionRisk s o.symbol
          quantity := final_quantity
          reason := some "Position closed."
          calculated_risk := none }
      else if 0 < final_quantity then
        { state := removePositionRisk s o.symbol
          quantity := final_quantity
          reason := some ("Partial exit. Original risk for " ++ o.symbol ++
            " removed.")
          calculated_risk := none }
      else
        { state := s, quantity := 0
          reason := some "Quantity is zero after adjustment."
          calculated_risk := none }

/-! ## SimulatedBroker (src/execution_module/brokers/simulated_broker.py)

The embedding models the configuration with no market-data provider
attached: `_execute_order` then uses the requested price as the execution
reference.  Python's `uuid4` order ids are modelled by a fresh counter. -/

/-- Order types supported by the simulated broker. -/
inductive OType : Type
  | market
  | limit
  | stop
  | stop_limit
  deriving DecidableEq, Repr

/-- Order statuses the broker assigns. -/
inductive OStatus : Type
  | pending
  | pending_execution
  | filled
  | rejected
  | cancelled
  | failed
  deriving DecidableEq, Repr

/-- The status strings used in the broker's result dicts. -/
def statusString : OStatus → String
  | .pending => "pending"
  | .pending_execution => "pending_execution"
  | .filled => "filled"
  | .rejected => "rejected"
  | .cancelled => "cancelled"
  | .failed => "failed"

/-- An order as submitted to `place_order` / kept in the pending queue. -/
structure BrokerOrder : Type where
  symbol : String
  action : FAction
  quantity : ℚ
  order_type : OType
  price : Option ℚ
  stop_price : Option ℚ
  deriving DecidableEq, Repr

/-- A broker-side position (`quantity`, `avg_price`). -/
structure BrokerPosition : Type where
  quantity : ℚ
  avg_price : ℚ
  deriving DecidableEq, Repr

/-- An entry of the broker's `orders` map. -/
structure OrderRecord : Type where
  order : BrokerOrder
  status : OStatus
  filled_quantity : ℚ
  avg_fill_price : Option ℚ
  message : String
  deriving DecidableEq, Repr

/-- The configured slippage model. -/
inductive SlippageModel : Type
  | none
  | fixed
  | percentage
  deriving DecidableEq, Repr

/-- State of a `SimulatedBroker`. -/
structure BrokerState : Type where
  is_connected : Bool
  cash_balance : ℚ
  positions : List (String × BrokerPosition)
  orders : List (String × OrderRecord)
  pending_orders : List (String × BrokerOrder)
  trade_history : List OrderRecord
  commission_per_trade : ℚ
  slippage_model : SlippageModel
  fixed_slippage : ℚ
  percentage_slippage : ℚ
  portfolio_ref : Option Portfolio
  next_order_id : ℕ
  deriving DecidableEq, Repr

/-- The dict returned by `place_order` / `_execute_order`. -/
structure ExecResult : Type where
  status : String
  order_id : String
  message : String
  filled_quantity : ℚ
  filled_price : Option ℚ
  deriving DecidableEq, Repr

/-- Embeds `SimulatedBroker._apply_slippage`: BUY pays up, SELL receives down. -/
def applySlippage (b : BrokerState) (price : ℚ) (action : FAction) : ℚ :=
  if b.slippage_model = .none then price
  else
    let slippage_amount :=
      match b.slippage_model with
      | .none => 0
      | .fixed => b.fixed_slippage
      | .percentage => price * b.percentage_slippage
    match action with
    | .buy => price + slippage_amount
    | .sell => price - slippage_amount

/-- The BUY branch's position update in `_execute_order` (create the
record when absent, then fold the fill into the weighted average). -/
def buyPositionUpdate (positions : List (String × BrokerPosition))
    (symbol : String) (quantity filled_price : ℚ) :
    List (String × BrokerPosition) :=
  let pos := (assocFind positions symbol).getD { quantity := 0, avg_price := 0 }
  let new_total_value := pos.quantity * pos.avg_price + quantity * filled_price
  let new_total_qty := pos.quantity + quantity
  assocInsert positions symbol
    { avg_price := if 0 < new_total_qty then new_total_value / new_total_qty
                   else 0
      quantity := new_total_qty }

/-- Embeds `SimulatedBroker._execute_order` with no market-data provider (the
execution reference price is the order's requested price).  Applies
slippage and commission, fills or rejects, records the outcome in the
`orders` map, and on a fill appends to `trade_history` and propagates the
fill into the referenced Portfolio via `update_fill`. -/
def executeOrder (b : BrokerState) (order_id : String) (o : BrokerOrder) :
    BrokerState × ExecResult :=
  if ¬b.is_connected then
    (b, { status := "failed", order_id := "", message := "Broker not connected"
          filled_quantity := 0, filled_price := none })
  else
    match o.price with
    | none =>
        (b, { status := "failed", order_id := order_id
              message := "Invalid order fields"
              filled_quantity := 0, filled_price := none })
    | some requested_price =>
      if ¬(o.symbol ≠ "" ∧ 0 < o.quantity) then
        (b, { status := "failed", order_id := order_id
              message := "Invalid order fields"
              filled_quantity := 0, filled_price := none })
      else
        let execution_price := requested_price
        let filled_price := applySlippage b execution_price o.action
        let order_value := o.quantity * filled_price
        let total_cost := order_value + b.commission_per_trade
        -- `if order_id not in self.orders:` record it as pending_execution
        let b₁ :=
          if (assocFind b.orders order_id).isSome then b
          else
            let rec₀ : OrderRecord :=
              { order := o, status := .pending_execution
                filled_quantity := 0, avg_fill_price := none
                message := "" }
            { b with orders := assocInsert b.orders order_id rec₀ }
        let step : BrokerState × OStatus × String :=
          match o.action with
          | .buy =>
            if total_cost ≤ b₁.cash_balance then
              ({ b₁ with
                 cash_balance := b₁.cash_balance - total_cost
                 positions := buyPositionUpdate b₁.positions o.symbol
                   o.quantity filled_price },
               .filled, "BUY order filled.")
            else (b₁, .rejected, "Insufficient cash")
          | .sell =>
            match assocFind b₁.positions o.symbol with
            | some pos =>
              if o.quantity ≤ pos.quantity then
                let pos' := { pos with quantity := pos.quantity - o.quantity }
                let pos'' := if pos'.quantity = 0 then
                    { pos' with avg_price := 0 }
                  else pos'
                ({ b₁ with
                   cash_balance :=
                     b₁.cash_balance + order_value - b₁.commission_per_trade
                   positions := assocInsert b₁.positions o.symbol pos'' },
                 .filled, "SELL order filled.")
              else (b₁, .rejected, "Insufficient position")
            | none => (b₁, .rejected, "Insufficient position")
        let b₂ := step.1
        let status := step.2.1
        let message := step.2.2
        -- `self.orders[order_id].update({...})` keeps the recorded order
        let rec₂ : OrderRecord :=
          match assocFind b₂.orders order_id with
          | some r =>
              { r with
                status := status
                filled_quantity := if status = .filled then o.quantity else 0
                avg_fill_price := if status = .filled then some filled_price
                  else none
                message := message }
          | none =>
              { order := o, status := status, filled_quantity := 0
                avg_fill_price := none, message := message }
        let b₃ := { b₂ with orders := assocInsert b₂.orders order_id rec₂ }
        let fill_event : FillEvent :=
          { symbol := o.symbol, action := o.action
            quantity := o.quantity, price := filled_price
            commission := b.commission_per_trade }
        let b₄ :=
          if status = .filled then
            { b₃ with
              trade_history := b₃.trade_history ++ [rec₂]
              portfolio_ref :=
                b₃.portfolio_ref.map (fun pf => pf.update_fill fill_event) }
          else b₃
        (b₄, { status := statusString status, order_id := order_id
               message := message
               filled_quantity := if status = .filled then o.quantity else 0
               filled_price := if status = .filled then some filled_price
                 else none })

/-- Fresh order identifier (models `uuid4`). -/
def freshOrderId (b : BrokerState) : String := toString b.next_order_id

/-- Embeds `SimulatedBroker.place_order`: validates the order, executes MARKET
orders immediately, and queues LIMIT/STOP/STOP_LIMIT orders as pending. -/
def placeOrder (b : BrokerState) (o : BrokerOrder) :
    BrokerState × ExecResult :=
  if ¬b.is_connected then
    (b, { status := "failed", order_id := "", message := "Broker not connected"
          filled_quantity := 0, filled_price := none })
  else
    let order_id := freshOrderId b
    let b := { b with next_order_id := b.next_order_id + 1 }
    if ¬(o.symbol ≠ "" ∧ 0 < o.quantity) then
      (b, { status := "failed", order_id := order_id
            message := "Invalid order fields"
            filled_quantity := 0, filled_price := none })
    else if (o.order_type = .limit ∨ o.order_type = .stop_limit) ∧
        o.price = none then
      (b, { status := "failed", order_id := order_id
            message := "Missing price for order type"
            filled_quantity := 0, filled_price := none })
    else if (o.order_type = .stop ∨ o.order_type = .stop_limit) ∧
        o.stop_price = none then
      (b, { status := "failed", order_id := order_id
            message := "Missing stop_price for order type"
            filled_quantity := 0, filled_price := none })
    else
      match o.order_type with
      | .market => executeOrder b order_id o
      | _ =>
        let rec₀ : OrderRecord :=
          { order := o, status := .pending, filled_quantity := 0
            avg_fill_price := none, message := "Order pending execution" }
        ({ b with
           orders := assocInsert b.orders order_id rec₀
           pending_orders := b.pending_orders ++ [(order_id, o)] },
         { status := "pending", order_id := order_id
           message := "Order accepted and pending execution"
           filled_quantity := 0, filled_price := none })

/-- A market-data bar as consulted by `process_pending_orders` (the code
reads only the bar's close). -/
structure Bar : Type where
  close : ℚ
  deriving DecidableEq, Repr

/-- The trigger test of `process_pending_orders`.  LIMIT: BUY fills at or
below the limit, SELL at or above.  STOP: BUY at or above the stop, SELL
at or below.  STOP_LIMIT: the stop condition arms it and the limit
condition must hold in the same evaluation.  (In the source a missing
price field would fault; `place_order` guarantees presence, and the
embedding returns `false` there.) -/
def shouldExecute (o : BrokerOrder) (current_price : ℚ) : Bool :=
  match o.order_type with
  | .limit =>
    match o.price with
    | some limit_price =>
      match o.action with
      | .buy => decide (current_price ≤ limit_price)
      | .sell => decide (limit_price ≤ current_price)
    | none => false
  | .stop =>
    match o.stop_price with
    | some stop_price =>
      match o.action with
      | .buy => decide (stop_price ≤ current_price)
      | .sell => decide (current_price ≤ stop_price)
    | none => false
  | .stop_limit =>
    match o.stop_price, o.price with
    | some stop_price, some limit_price =>
      let stop_triggered :=
        match o.action with
        | .buy => decide (stop_price ≤ current_price)
        | .sell => decide (current_price ≤ stop_price)
      if stop_triggered then
        match o.action with
        | .buy => decide (current_price ≤ limit_price)
        | .sell => decide (limit_price ≤ current_price)
      else false
    | _, _ => false
  | .market => false

/-- One step of `process_pending_orders`: evaluate a pending order against
the current bars; when triggered, remove it from the queue and execute it
as a market order at the bar's close. -/
def processPendingOne (b : BrokerState) (mkt : List (String × Bar))
    (order_id : String) (o : BrokerOrder) : BrokerState :=
  match assocFind mkt o.symbol with
  | none => b
  | some bar =>
    let current_price := bar.close
    if shouldExecute o current_price then
      let b₁ := { b with
        pending_orders := assocErase b.pending_orders order_id }
      (executeOrder b₁ order_id
        { o with price := some current_price, order_type := .market }).1
    else b

/-- Embeds `SimulatedBroker.process_pending_orders`: iterate over a snapshot of
the pending queue. -/
def processPendingOrders (b : BrokerState) (mkt : List (String × Bar)) :
    BrokerState :=
  if ¬b.is_connected ∨ b.pending_orders = [] then b
  else b.pending_orders.foldl
    (fun st kv => processPendingOne st mkt kv.1 kv.2) b

/-- The dict returned by `cancel_order`. -/
structure CancelResult : Type where
  status : String
  message : String
  deriving DecidableEq, Repr

/-- Embeds `SimulatedBroker.cancel_order`: only orders not already in a terminal
status (`filled`, `rejected`, `cancelled`, `failed`) can be cancelled;
cancelling removes the order from the pending queue. -/
def cancelOrder (b : BrokerState) (order_id : String) :
    BrokerState × CancelResult :=
  match assocFind b.orders order_id with
  | some order_info =>
    if order_info.status ≠ .filled ∧ order_info.status ≠ .rejected ∧
       order_info.status ≠ .cancelled ∧ order_info.status ≠ .failed then
      let cancelled_info :=
        { order_info with
          status := OStatus.cancelled
          message := "Order cancelled by user." }
      ({ b with
         pending_orders := assocErase b.pending_orders order_id
         orders := assocInsert b.orders order_id cancelled_info },
       { status := "cancelled", message := "Order cancelled successfully." })
    else
      (b, { status := "failed"
            message := "Order cannot be cancelled (status: " ++
              statusString order_info.status ++ ")." })
  | none => (b, { status := "failed", message := "Order ID not found" })

/-! ## OrderHandler (src/execution_module/order_handler.py)

`process_signal` is embedded with its duck-typed collaborators as
parameters: the optional risk manager as a pair of functions
(`validate_signal`, `adjust_order_size` — fed with the portfolio snapshot
inside the closure), and the broker's `place_order` as a fallible function
(`Except` models a raised exception). -/

/-- Signal actions at the handler level (HOLD short-circuits). -/
inductive HAction : Type
  | buy
  | sell
  | hold
  deriving DecidableEq, Repr

/-- A signal/order dict as the handler passes it along. -/
structure HSignal : Type where
  action : HAction
  symbol : String
  quantity : Option ℚ
  price : Option ℚ
  order_type : Option String
  reason : Option String
  deriving DecidableEq, Repr

/-- The duck-typed risk-manager interface the handler calls. -/
structure RiskMgrI : Type where
  validate : HSignal → Bool × String
  adjust : HSignal → HSignal

/-- A result dict returned by `process_signal` (or by the broker). -/
structure HResult : Type where
  status : String
  message : String
  deriving DecidableEq, Repr

/-- The stages of `process_signal` before the broker call: HOLD
short-circuit, risk validation, risk adjustment with the zero-quantity
gate, order-type defaulting, and the LIMIT-missing-price check.  Returns
either an early result or the order handed to `place_order`. -/
def prepareOrder (rm : Option RiskMgrI) (signal : HSignal) :
    HResult ⊕ HSignal :=
  if signal.action = .hold then
    Sum.inl { status := "ignored", message := "Signal was HOLD or invalid." }
  else
    let gated : HResult ⊕ HSignal :=
      match rm with
      | some r =>
        let v := r.validate signal
        if ¬v.1 then Sum.inl { status := "rejected_risk", message := v.2 }
        else
          let adjusted := r.adjust signal
          if adjusted.quantity.getD 0 ≤ 0 ∧ adjusted.action ≠ .hold then
            Sum.inl { status := "rejected_risk_adjusted_to_zero"
                      message := adjusted.reason.getD
                        "Quantity zero after risk adjustment" }
          else Sum.inr adjusted
      | none => Sum.inr signal
    match gated with
    | .inl r => Sum.inl r
    | .inr order =>
      let order := if order.order_type = none then
          { order with order_type := some "MARKET" }
        else order
      if order.order_type = some "LIMIT" ∧ order.price = none then
        Sum.inl { status := "failed", message := "LIMIT order missing price" }
      else Sum.inr order

/-- The order `process_signal` hands to the broker, when it reaches the
placement step. -/
def placedOrder (rm : Option RiskMgrI) (signal : HSignal) : Option HSignal :=
  match prepareOrder rm signal with
  | .inl _ => none
  | .inr order => some order

/-- Embeds `OrderHandler.process_signal`: the pipeline stages, then the broker
call wrapped in try/except — a raised exception becomes a returned
result with status `failed` carrying the exception message.  The function
is total: no exception propagates out. -/
def processSignal (rm : Option RiskMgrI)
    (place : HSignal → Except String HResult) (signal : HSignal) : HResult :=
  match prepareOrder rm signal with
  | .inl r => r
  | .inr order =>
    match place order with
    | .ok execution_result => execution_result
    | .error e =>
        { status := "failed"
          message := "Exception during order placement: " ++ e }

/-! ## Test fixtures used by the witness instances -/

/-- A portfolio with 100000 cash and no activity yet. -/
def emptyPortfolio : Portfolio :=
  { cash := 100000, positions := [], trade_log := [], portfolio_history := [] }

/-- A connected broker with 100000 cash, a flat commission of 1 and fixed
per-share slippage of 0.01, referencing `emptyPortfolio`. -/
def sampleBroker : BrokerState :=
  { is_connected := true
    cash_balance := 100000
    positions := []
    orders := []
    pending_orders := []
    trade_history := []
    commission_per_trade := 1
    slippage_model := .fixed
    fixed_slippage := 1/100
    percentage_slippage := 0
    portfolio_ref := some emptyPortfolio
    next_order_id := 0 }

/-- An already-filled order record, for cancellation tests. -/
def filledRec : OrderRecord :=
  { order := { symbol := "A", action := .buy, quantity := 10
               order_type := .market, price := some 10, stop_price := none }
    status := .filled
    filled_quantity := 10
    avg_fill_price := some 10
    message := "BUY order filled." }

/-- A pending LIMIT order record, for cancellation tests. -/
def pendingRec : OrderRecord :=
  { order := { symbol := "A", action := .buy, quantity := 10
               order_type := .limit, price := some 10, stop_price := none }
    status := .pending
    filled_quantity := 0
    avg_fill_price := none
    message := "Order pending execution" }

/-- A broker holding one already-filled order record. -/
def filledOrderBroker : BrokerState :=
  { sampleBroker with orders := [("X", filledRec)] }

/-- A STOP_LIMIT BUY order: stop 20, limit 21. -/
def stopLimitOrder : BrokerOrder :=
  { symbol := "A", action := .buy, quantity := 10
    order_type := .stop_limit, price := some 21, stop_price := some 20 }

/-- A broker with `stopLimitOrder` waiting in the pending queue. -/
def pendingStopLimitBroker : BrokerState :=
  { sampleBroker with
    orders := [("0",
      { order := stopLimitOrder, status := .pending, filled_quantity := 0
        avg_fill_price := none, message := "Order pending execution" })]
    pending_orders := [("0", stopLimitOrder)] }

/-- The quantity the broker holds for a symbol (0 when no record). -/
def brokerHeldQuantity (b : BrokerState) (symbol : String) : ℚ :=
  match assocFind b.positions symbol with
  | none => 0
  | some pos => pos.quantity

/-! ## Basic lemmas about the association-list operations -/

theorem assocFind_insert_self {α : Type} (l : List (String × α)) (k : String)
    (v : α) : assocFind (assocInsert l k v) k = some v := by
  induction l with
  | nil => simp [assocInsert, assocFind]
  | cons hd tl ih =>
    obtain ⟨k', v'⟩ := hd
    by_cases h : k' = k
    · simp [assocInsert, assocFind, h]
    · simp [assocInsert, assocFind, h, ih]

theorem assocFind_map {α β : Type} (g : α → β) (l : List (String × α))
    (k : String) :
    assocFind (l.map (fun kv => (kv.1, g kv.2))) k = (assocFind l k).map g := by
  induction l with
  | nil => simp [assocFind]
  | cons hd tl ih =>
    by_cases h : hd.1 = k <;> simp [assocFind, h, ih]

/-! ## Lemmas about the market-value refresh -/

theorem mvUpdate_quantity (pos : Position) :
    (mvUpdate pos).quantity = pos.quantity := by
  unfold mvUpdate; split <;> rfl

theorem mvUpdate_realized_pnl (pos : Position) :
    (mvUpdate pos).realized_pnl = pos.realized_pnl := by
  unfold mvUpdate; split <;> rfl

theorem mvUpdate_avg_price (pos : Position) :
    (mvUpdate pos).avg_price = pos.avg_price := by
  unfold mvUpdate; split <;> rfl

theorem recordPortfolioValue_cash (p : Portfolio) :
    (recordPortfolioValue p).cash = p.cash := rfl

theorem updateMarketValues_cash (p : Portfolio) :
    (updateMarketValues p).cash = p.cash := rfl

theorem assocFind_updateMarketValues (p : Portfolio) (sym : String) :
    assocFind (updateMarketValues p).positions sym =
      (assocFind p.positions sym).map mvUpdate := by
  simp [updateMarketValues, assocFind_map]

theorem recordPortfolioValue_positions (p : Portfolio) :
    (recordPortfolioValue p).positions = (updateMarketValues p).positions :=
  rfl

/-! ## Claim theorems -/

/-- C1: a SELL fill whose quantity exceeds the held quantity of the symbol
(including a SELL of a symbol with no position record) is rejected by
`Portfolio.update_fill` and leaves the ledger entirely unchanged: same
cash, no position mutated, no trade-log entry, no portfolio-history
record. -/
theorem update_fill_rejects_oversized_sell (p : Portfolio) (f : FillEvent)
    (ha : f.action = .sell) (hover : heldQuantity p f.symbol < f.quantity) :
    p.update_fill f = p := by
  unfold Portfolio.update_fill
  split
  · rfl
  · rw [ha]
    cases hfind : assocFind p.positions f.symbol with
    | none =>
        simp only [hfind]
        cases p
        simp only [Portfolio.mk.injEq, and_true, true_and]
        ring
    | some pos =>
        have hlt : pos.quantity < f.quantity := by
          simpa [heldQuantity, hfind] using hover
        simp only [hfind, if_pos hlt]
        cases p
        simp only [Portfolio.mk.injEq, and_true, true_and]
        ring

/-- Witness for C1: selling 5 units of an untraded symbol leaves a fresh
ledger untouched. -/
theorem update_fill_rejects_oversized_sell_witness :
    Portfolio.update_fill emptyPortfolio
      { symbol := "A", action := .sell, quantity := 5, price := 10
        commission := 0 } = emptyPortfolio :=
  update_fill_rejects_oversized_sell emptyPortfolio _ rfl (by decide)

/-- A first BUY fill on a fresh symbol: cash is debited by cost plus
commission and the created position carries quantity `q` at average price
`price`. -/
theorem update_fill_buy_new (p : Portfolio) (sym : String) (q price c : ℚ)
    (hs : sym ≠ "") (hq : 0 < q) (hp : 0 < price)
    (hnone : assocFind p.positions sym = none) :
    (p.update_fill ⟨sym, .buy, q, price, c⟩).cash = p.cash - (q * price + c) ∧
    assocFind (p.update_fill ⟨sym, .buy, q, price, c⟩).positions sym =
      some { quantity := q, avg_price := price, total_cost := q * price
             realized_pnl := 0, current_price := price
             market_value := q * price, unrealized_pnl := 0 } := by
  have hq' : q ≠ 0 := ne_of_gt hq
  unfold Portfolio.update_fill
  simp only [ne_eq, hs, not_false_iff, hq, hp, and_self, not_true, if_false,
    hnone, assocFind_insert_self, recordPortfolioValue_cash,
    updateMarketValues_cash, recordPortfolioValue_positions,
    assocFind_updateMarketValues, not_not, ite_false, ite_true]
  constructor
  · trivial
  · simp only [assocFind_insert_self, Option.map_some']
    have havg : (0 * 0 + q * price) / (0 + q) = price := by
      field_simp
    simp [mvUpdate, zero_add, hq', havg, mul_comm]
    exact ⟨fun hle => absurd hle (not_le.mpr hq),
           fun hle => absurd hle (not_le.mpr hq)⟩

/-- C8: a BUY of quantity `q` at price `price` followed by a SELL of the
same quantity at the same price, both with zero commission, restores cash
exactly and leaves the position record with accumulated realized PnL 0. -/
theorem buy_sell_round_trip (p : Portfolio) (sym : String) (q price : ℚ)
    (hs : sym ≠ "") (hq : 0 < q) (hp : 0 < price)
    (hnone : assocFind p.positions sym = none) :
    ((p.update_fill ⟨sym, .buy, q, price, 0⟩).update_fill
        ⟨sym, .sell, q, price, 0⟩).cash = p.cash ∧
    (∃ pos, assocFind ((p.update_fill ⟨sym, .buy, q, price, 0⟩).update_fill
        ⟨sym, .sell, q, price, 0⟩).positions sym = some pos ∧
      pos.realized_pnl = 0) := by
  obtain ⟨hcash₁, hfind₁⟩ := update_fill_buy_new p sym q price 0 hs hq hp hnone
  generalize hgen : p.update_fill ⟨sym, .buy, q, price, 0⟩ = p₁ at hcash₁ hfind₁ ⊢
  unfold Portfolio.update_fill
  simp only [ne_eq, hs, not_false_iff, hq, hp, and_self, not_true, not_not,
    if_false, ite_true, ite_false, hfind₁, lt_irrefl, recordPortfolioValue_cash,
    updateMarketValues_cash, recordPortfolioValue_positions,
    assocFind_updateMarketValues, assocFind_insert_self, Option.map_some']
  constructor
  · rw [hcash₁]; ring
  · refine ⟨_, rfl, ?_⟩
    simp [mvUpdate_realized_pnl]
    ring

/-- Witness for C8: a 10 @ 5 round trip on a fresh ledger restores the
100000 cash and accumulates zero realized PnL. -/
theorem buy_sell_round_trip_witness :
    ((emptyPortfolio.update_fill ⟨"A", .buy, 10, 5, 0⟩).update_fill
        ⟨"A", .sell, 10, 5, 0⟩).cash = emptyPortfolio.cash ∧
    (∃ pos, assocFind ((emptyPortfolio.update_fill
        ⟨"A", .buy, 10, 5, 0⟩).update_fill
        ⟨"A", .sell, 10, 5, 0⟩).positions "A" = some pos ∧
      pos.realized_pnl = 0) :=
  buy_sell_round_trip emptyPortfolio "A" 10 5 (by decide) (by decide)
    (by decide) (by decide)

/-- C10: `get_position` observes a record exactly when the symbol is held
with strictly positive quantity; a fully closed position (its record is
retained internally with quantity 0) and a never-traded symbol both yield
none. -/
theorem get_position_only_when_held (p : Portfolio) (sym : String) :
    (∃ pos, p.get_position sym = some pos) ↔
      (∃ pos, assocFind p.positions sym = some pos ∧ 0 < pos.quantity) := by
  unfold Portfolio.get_position
  cases hfind : assocFind p.positions sym with
  | none => simp
  | some pos =>
    by_cases hq : 0 < pos.quantity
    · simp [hq, assocFind_updateMarketValues, hfind]
    · simp [hq]

/-! Constructor disequalities used to discharge branch conditions. -/

theorem sAction_buy_ne_short : SAction.buy ≠ SAction.short :=
  fun h => SAction.noConfusion h

theorem slippageModel_fixed_ne_none : SlippageModel.fixed ≠ SlippageModel.none :=
  fun h => SlippageModel.noConfusion h

/-- The function `_apply_slippage` reads only the three slippage-configuration fields. -/
theorem applySlippage_congr (b' b : BrokerState)
    (h₁ : b'.slippage_model = b.slippage_model)
    (h₂ : b'.fixed_slippage = b.fixed_slippage)
    (h₃ : b'.percentage_slippage = b.percentage_slippage)
    (price : ℚ) (action : FAction) :
    applySlippage b' price action = applySlippage b price action := by
  unfold applySlippage
  rw [h₁, h₂, h₃]

/-- C2 counterexample: in Scenario A (fresh default-configured manager,
capital/total value/cash 100000, entry 50, stop 45) the maximum sized
quantity returned by `calculate_max_position_size` is not 400: the
default max-order-notional cap (`max_order_value_pct = 0.1`, 10000 at
price 50) clips it to 200 before the risk-based 400 can be reached. -/
theorem scenario_a_max_size_not_400 :
    (calculateMaxPositionSize (mkRiskManager 100000) 50
      { total_value := 100000, cash := 100000 } (some 45) .buy).2 ≠ 400 := by
  norm_num [calculateMaxPositionSize, mkRiskManager, updatePortfolioState,
    calculateCurrentDrawdown, pyInt, min_def, max_def, abs,
    sAction_buy_ne_short]

/-- C2 (amended): in Scenario A the risk budget is 2000 and the per-unit
risk 5, but the maximum sized quantity is 200 (clipped by the max
single-order notional of 10% of capital); a requested quantity of 100 is
adjusted to exactly 100 and the symbol's risk-ledger entry becomes 500. -/
theorem scenario_a_sizing :
    (calculateMaxPositionSize (mkRiskManager 100000) 50
      { total_value := 100000, cash := 100000 } (some 45) .buy).2 = 200 ∧
    (adjustOrderSize (mkRiskManager 100000)
      { action := .buy, symbol := "SYM", price := 50
        stop_loss_price := some 45, quantity := .num 100 }
      { total_value := 100000, cash := 100000 } 0).quantity = 100 ∧
    assocFind (adjustOrderSize (mkRiskManager 100000)
      { action := .buy, symbol := "SYM", price := 50
        stop_loss_price := some 45, quantity := .num 100 }
      { total_value := 100000, cash := 100000 } 0).state.positions_risk
      "SYM" = some 500 := by
  refine ⟨?_, ?_, ?_⟩ <;>
  · norm_num [adjustOrderSize, calculateMaxPositionSize, mkRiskManager,
      updatePortfolioState, calculateCurrentDrawdown, pyInt, min_def, max_def,
      abs, addPositionRisk, removePositionRisk, getRiskAmountForTrade,
      assocFind, assocInsert, sAction_buy_ne_short, Option.some_ne_none,
      (by decide : ("SYM" : String) ≠ "")]

/-- C3: whenever the drawdown of the refreshed capital view is at or above
`max_drawdown_limit_pct` after the pushed snapshot is applied,
`adjust_order_size` returns quantity 0 with a recorded reason for every
BUY or SHORT order, while SELL/COVER sizing is independent of the capital
state (closing orders remain sized normally); the high-water mark is
monotone under snapshot pushes, so this persists until capital recovers. -/
theorem drawdown_breaker_blocks_new_exposure (s : RiskState) (o : SignalOrder)
    (ps : Snapshot) (position_quantity : ℚ)
    (hs : o.symbol ≠ "") (hp : 0 < o.price)
    (hdd : (updatePortfolioState s ps).max_drawdown_limit_pct ≤
      calculateCurrentDrawdown (updatePortfolioState s ps)) :
    ((o.action = .buy ∨ o.action = .short) →
      (adjustOrderSize s o ps position_quantity).quantity = 0 ∧
      (adjustOrderSize s o ps position_quantity).reason =
        some "Max drawdown limit reached.") ∧
    ((o.action = .sell ∨ o.action = .cover) →
      ∀ (s' : RiskState) (ps' : Snapshot),
        (adjustOrderSize s' o ps' position_quantity).quantity =
          (adjustOrderSize s o ps position_quantity).quantity) ∧
    s.high_water_mark ≤ (updatePortfolioState s ps).high_water_mark := by
  have hnot : ¬(o.symbol = "" ∨ o.price ≤ 0) := by
    push_neg
    exact ⟨hs, hp⟩
  refine ⟨?_, ?_, ?_⟩
  · rintro (ha | ha) <;>
    · unfold adjustOrderSize
      rw [if_neg hnot, ha]
      rw [if_pos hdd]
      exact ⟨rfl, rfl⟩
  · rintro (ha | ha) <;>
    · intro s' ps'
      have hnot' : ¬(o.symbol = "" ∨ o.price ≤ 0) := hnot
      unfold adjustOrderSize
      rw [if_neg hnot, if_neg hnot', ha]
      dsimp only
      split_ifs <;> rfl
  · unfold updatePortfolioState
    dsimp only
    split
    · exact le_of_lt (by assumption)
    · exact le_refl _

/-- Witness for C3: with capital pushed down to 89000 against a 100000
high-water mark (drawdown 11% ≥ 10%), a BUY request for 100 shares is
sized to 0 with the drawdown reason. -/
theorem drawdown_breaker_blocks_new_exposure_witness :
    (adjustOrderSize (mkRiskManager 100000)
      { action := .buy, symbol := "SYM", price := 50
        stop_loss_price := some 45, quantity := .num 100 }
      { total_value := 89000, cash := 89000 } 0).quantity = 0 ∧
    (adjustOrderSize (mkRiskManager 100000)
      { action := .buy, symbol := "SYM", price := 50
        stop_loss_price := some 45, quantity := .num 100 }
      { total_value := 89000, cash := 89000 } 0).reason =
      some "Max drawdown limit reached." :=
  (drawdown_breaker_blocks_new_exposure (mkRiskManager 100000) _ _ 0
    (by decide) (by norm_num)
    (by norm_num [updatePortfolioState, mkRiskManager,
      calculateCurrentDrawdown])).1 (Or.inl rfl)

/-- C7: cancelling an order in a terminal status (filled, rejected or
cancelled) returns a failure result, leaves the broker state (and hence
the order's status) unchanged and is idempotent — a second call returns
the identical failure result; a cancellation that succeeds is possible
only from a pending status. -/
theorem cancel_order_terminal_and_pending (b : BrokerState)
    (order_id : String) (rec : OrderRecord)
    (hfind : assocFind b.orders order_id = some rec) :
    ((rec.status = .filled ∨ rec.status = .rejected ∨
        rec.status = .cancelled) →
      (cancelOrder b order_id).2.status = "failed" ∧
      (cancelOrder b order_id).1 = b ∧
      (cancelOrder (cancelOrder b order_id).1 order_id).2 =
        (cancelOrder b order_id).2) ∧
    ((cancelOrder b order_id).2.status = "cancelled" →
      rec.status = .pending ∨ rec.status = .pending_execution) := by
  constructor
  · intro hterm
    have hcond : ¬(rec.status ≠ .filled ∧ rec.status ≠ .rejected ∧
        rec.status ≠ .cancelled ∧ rec.status ≠ .failed) := by
      rcases hterm with h | h | h <;> simp [h]
    unfold cancelOrder
    simp only [hfind, if_neg hcond]
    refine ⟨?_, ?_, ?_⟩ <;> trivial
  · intro hsucc
    unfold cancelOrder at hsucc
    simp only [hfind] at hsucc
    by_cases hcond : rec.status ≠ .filled ∧ rec.status ≠ .rejected ∧
        rec.status ≠ .cancelled ∧ rec.status ≠ .failed
    · obtain ⟨h1, h2, h3, h4⟩ := hcond
      cases hst : rec.status
      · exact Or.inl rfl
      · exact Or.inr rfl
      · exact absurd hst h1
      · exact absurd hst h2
      · exact absurd hst h3
      · exact absurd hst h4
    · rw [if_neg hcond] at hsucc
      have hbad : ("failed" : String) = "cancelled" := hsucc
      exact absurd hbad (by decide)

/-- Witness for C7: cancelling an already-filled order fails, changes
nothing, and a repeated cancel returns the identical result. -/
theorem cancel_order_terminal_and_pending_witness :
    (cancelOrder filledOrderBroker "X").2.status = "failed" ∧
    (cancelOrder filledOrderBroker "X").1 = filledOrderBroker ∧
    (cancelOrder (cancelOrder filledOrderBroker "X").1 "X").2 =
      (cancelOrder filledOrderBroker "X").2 :=
  (cancel_order_terminal_and_pending filledOrderBroker "X" filledRec
    (by rfl)).1 (Or.inl rfl)

/-- Running `_execute_order` on an underfunded BUY or an over-held SELL: rejected,
with cash, positions and the referenced portfolio untouched. -/
theorem executeOrder_insufficient (b : BrokerState) (order_id : String)
    (o : BrokerOrder) (rp : ℚ)
    (hconn : b.is_connected = true)
    (hsym : o.symbol ≠ "") (hq : 0 < o.quantity)
    (hprice : o.price = some rp)
    (hcase :
      (o.action = .buy ∧
        b.cash_balance <
          o.quantity * applySlippage b rp .buy + b.commission_per_trade) ∨
      (o.action = .sell ∧ brokerHeldQuantity b o.symbol < o.quantity)) :
    (executeOrder b order_id o).2.status = "rejected" ∧
    (executeOrder b order_id o).1.cash_balance = b.cash_balance ∧
    (executeOrder b order_id o).1.positions = b.positions ∧
    (executeOrder b order_id o).1.portfolio_ref = b.portfolio_ref := by
  unfold executeOrder
  simp only [hconn, hprice, hsym, hq, ne_eq, not_false_iff, and_self,
    not_true, Bool.not_true, if_false, ite_true, ite_false, not_not]
  rcases hcase with ⟨ha, hlt⟩ | ⟨ha, hlt⟩
  · rw [ha]
    by_cases hOrd : (assocFind b.orders order_id).isSome = true
    · simp only [hOrd, ite_true]
      rw [if_neg (not_le.mpr hlt)]
      exact ⟨rfl, rfl, rfl, rfl⟩
    · simp only [hOrd, Bool.false_eq_true, ite_false]
      rw [if_neg (not_le.mpr hlt)]
      exact ⟨rfl, rfl, rfl, rfl⟩
  · rw [ha]
    unfold brokerHeldQuantity at hlt
    by_cases hOrd : (assocFind b.orders order_id).isSome = true
    · simp only [hOrd, ite_true]
      cases hfind : assocFind b.positions o.symbol with
      | none =>
        try simp only [hfind]
        exact ⟨rfl, rfl, rfl, rfl⟩
      | some pos =>
        try rw [hfind] at hlt
        have hlt' : pos.quantity < o.quantity := by simpa using hlt
        try simp only [hfind]
        simp only [not_le.mpr hlt', ite_false, if_false]
        exact ⟨rfl, rfl, rfl, rfl⟩
    · simp only [hOrd, Bool.false_eq_true, ite_false]
      cases hfind : assocFind b.positions o.symbol with
      | none =>
        try simp only [hfind]
        exact ⟨rfl, rfl, rfl, rfl⟩
      | some pos =>
        try rw [hfind] at hlt
        have hlt' : pos.quantity < o.quantity := by simpa using hlt
        try simp only [hfind]
        simp only [not_le.mpr hlt', ite_false, if_false]
        exact ⟨rfl, rfl, rfl, rfl⟩

/-- C6: a MARKET BUY whose total cost (quantity times the slippage-adjusted
fill price, plus commission) exceeds the broker's cash is marked rejected
with cash, positions and the referenced portfolio untouched (no fill is
propagated); symmetrically a MARKET SELL for more than the broker-held
quantity is rejected with no state change. -/
theorem market_order_insufficient_rejected (b : BrokerState)
    (o : BrokerOrder) (rp : ℚ)
    (hconn : b.is_connected = true)
    (htype : o.order_type = .market)
    (hsym : o.symbol ≠ "") (hq : 0 < o.quantity)
    (hprice : o.price = some rp)
    (hcase :
      (o.action = .buy ∧
        b.cash_balance <
          o.quantity * applySlippage b rp .buy + b.commission_per_trade) ∨
      (o.action = .sell ∧ brokerHeldQuantity b o.symbol < o.quantity)) :
    (placeOrder b o).2.status = "rejected" ∧
    (placeOrder b o).1.cash_balance = b.cash_balance ∧
    (placeOrder b o).1.positions = b.positions ∧
    (placeOrder b o).1.portfolio_ref = b.portfolio_ref := by
  unfold placeOrder
  simp only [hconn, htype, hprice, hsym, hq, ne_eq, not_false_iff, and_self,
    not_true, Bool.not_true, if_false, ite_true, ite_false, false_and,
    or_self, and_false, reduceCtorEq, not_not]
  exact executeOrder_insufficient _ (freshOrderId b) o rp rfl hsym hq
    hprice hcase

/-- Witness for C6: a MARKET BUY of 1000000 shares at 10 against 100000
cash is rejected and the broker's cash, positions and portfolio are
untouched. -/
theorem market_order_insufficient_rejected_witness :
    (placeOrder sampleBroker
      { symbol := "A", action := .buy, quantity := 1000000
        order_type := .market, price := some 10
        stop_price := none }).2.status = "rejected" ∧
    (placeOrder sampleBroker
      { symbol := "A", action := .buy, quantity := 1000000
        order_type := .market, price := some 10
        stop_price := none }).1.cash_balance = sampleBroker.cash_balance ∧
    (placeOrder sampleBroker
      { symbol := "A", action := .buy, quantity := 1000000
        order_type := .market, price := some 10
        stop_price := none }).1.positions = sampleBroker.positions ∧
    (placeOrder sampleBroker
      { symbol := "A", action := .buy, quantity := 1000000
        order_type := .market, price := some 10
        stop_price := none }).1.portfolio_ref = sampleBroker.portfolio_ref :=
  market_order_insufficient_rejected sampleBroker _ 10 rfl rfl (by decide)
    (by norm_num) rfl
    (Or.inl ⟨rfl, by norm_num [sampleBroker, applySlippage,
      slippageModel_fixed_ne_none]⟩)

set_option maxHeartbeats 1000000 in
/-- Running `_execute_order` never touches the pending-order queue. -/
theorem executeOrder_pending_orders (b : BrokerState) (order_id : String)
    (o : BrokerOrder) :
    (executeOrder b order_id o).1.pending_orders = b.pending_orders := by
  unfold executeOrder
  split
  · rfl
  · split
    · rfl
    · split
      · rfl
      · cases o.action <;>
          by_cases hOrd : (assocFind b.orders order_id).isSome = true <;>
          simp only [hOrd, Bool.false_eq_true, ite_true, ite_false] <;>
          (repeat' split) <;> rfl

/-- The trigger test of a pending STOP_LIMIT order: the stop condition
must arm it and the limit condition must hold in the same evaluation. -/
theorem shouldExecute_stop_limit (o : BrokerOrder) (c sp lp : ℚ)
    (htype : o.order_type = .stop_limit)
    (hsp : o.stop_price = some sp) (hlp : o.price = some lp) :
    shouldExecute o c = true ↔
      (((o.action = .buy ∧ sp ≤ c) ∨ (o.action = .sell ∧ c ≤ sp)) ∧
       ((o.action = .buy ∧ c ≤ lp) ∨ (o.action = .sell ∧ lp ≤ c))) := by
  unfold shouldExecute
  rw [htype, hsp, hlp]
  cases ha : o.action <;>
    by_cases hstop : sp ≤ c <;>
    by_cases hstop' : c ≤ sp <;>
    simp [ha, hstop, hstop']

/-- C4: a pending STOP_LIMIT order executes only when both the stop
condition (BUY: close at or above the stop; SELL: close at or below) and
the limit condition (BUY: close at or below the limit; SELL: close at or
above) hold against the same bar's close; when they do not both hold — in
particular when the stop condition holds but the limit condition fails —
the broker state is entirely unchanged, so the order remains in the
pending queue (not cancelled) for later bars, and when both hold the
order leaves the pending queue for execution. -/
theorem stop_limit_requires_both_conditions (b : BrokerState)
    (order_id : String) (o : BrokerOrder) (bar : Bar) (sp lp : ℚ)
    (hconn : b.is_connected = true)
    (hpend : b.pending_orders = [(order_id, o)])
    (htype : o.order_type = .stop_limit)
    (hsp : o.stop_price = some sp) (hlp : o.price = some lp) :
    (¬(((o.action = .buy ∧ sp ≤ bar.close) ∨
          (o.action = .sell ∧ bar.close ≤ sp)) ∧
        ((o.action = .buy ∧ bar.close ≤ lp) ∨
          (o.action = .sell ∧ lp ≤ bar.close))) →
      processPendingOrders b [(o.symbol, bar)] = b) ∧
    ((((o.action = .buy ∧ sp ≤ bar.close) ∨
        (o.action = .sell ∧ bar.close ≤ sp)) ∧
      ((o.action = .buy ∧ bar.close ≤ lp) ∨
        (o.action = .sell ∧ lp ≤ bar.close))) →
      (processPendingOrders b [(o.symbol, bar)]).pending_orders = []) := by
  have hne : ¬(¬b.is_connected = true ∨ b.pending_orders = []) := by
    simp [hconn, hpend]
  constructor
  · intro hno
    have hfalse : shouldExecute o bar.close = false := by
      rw [← Bool.not_eq_true,
        shouldExecute_stop_limit o bar.close sp lp htype hsp hlp]
      exact hno
    unfold processPendingOrders
    rw [if_neg hne, hpend]
    simp [processPendingOne, assocFind, hfalse]
  · intro hyes
    have htrue : shouldExecute o bar.close = true := by
      rw [shouldExecute_stop_limit o bar.close sp lp htype hsp hlp]
      exact hyes
    unfold processPendingOrders
    rw [if_neg hne, hpend]
    simp only [List.foldl]
    unfold processPendingOne
    simp only [assocFind, if_pos rfl, htrue, ite_true]
    rw [executeOrder_pending_orders]
    simp [hpend, assocErase]

/-- Witness for C4: the pending STOP_LIMIT BUY (stop 20, limit 21) sees a
bar closing at 22 — the stop arms but the limit fails — and the broker
state is unchanged. -/
theorem stop_limit_requires_both_conditions_witness :
    processPendingOrders pendingStopLimitBroker [("A", { close := 22 })] =
      pendingStopLimitBroker :=
  (stop_limit_requires_both_conditions pendingStopLimitBroker "0"
    stopLimitOrder { close := 22 } 20 21 rfl rfl rfl rfl rfl).1
    (by decide)

set_option maxHeartbeats 1000000 in
/-- Running `_execute_order` on a funded MARKET BUY: the result and the order
record are filled at the slippage-adjusted price, cash is debited by cost
plus commission, and the fill is propagated into the referenced Portfolio
via `update_fill`. -/
theorem executeOrder_buy_fills (b : BrokerState) (order_id : String)
    (o : BrokerOrder) (rp fp : ℚ)
    (hconn : b.is_connected = true)
    (hsym : o.symbol ≠ "") (hq : 0 < o.quantity)
    (hprice : o.price = some rp) (ha : o.action = .buy)
    (hfp : applySlippage b rp .buy = fp)
    (hcash : o.quantity * fp + b.commission_per_trade ≤ b.cash_balance) :
    (executeOrder b order_id o).2.status = "filled" ∧
    (∃ r, assocFind (executeOrder b order_id o).1.orders order_id = some r ∧
      r.status = .filled ∧
      r.avg_fill_price = some fp) ∧
    (executeOrder b order_id o).1.cash_balance =
      b.cash_balance - (o.quantity * fp + b.commission_per_trade) ∧
    (executeOrder b order_id o).1.portfolio_ref =
      b.portfolio_ref.map (fun pf => pf.update_fill
        { symbol := o.symbol, action := .buy, quantity := o.quantity
          price := fp
          commission := b.commission_per_trade }) := by
  subst hfp
  unfold executeOrder
  simp only [hconn, hprice, hsym, hq, ne_eq, not_false_iff, and_self,
    not_true, Bool.not_true, if_false, ite_true, ite_false, not_not]
  rw [ha]
  by_cases hOrd : (assocFind b.orders order_id).isSome = true
  · obtain ⟨r0, hr0⟩ := Option.isSome_iff_exists.mp hOrd
    simp only [hOrd, ite_true]
    rw [if_pos hcash]
    simp only [hr0]
    exact ⟨rfl, ⟨_, assocFind_insert_self _ _ _, rfl, rfl⟩, rfl, rfl⟩
  · have hnone : assocFind b.orders order_id = none :=
      Option.not_isSome_iff_eq_none.mp (by simpa using hOrd)
    simp only [hOrd, Bool.false_eq_true, ite_false]
    rw [if_pos hcash]
    simp only [hnone, assocFind_insert_self]
    exact ⟨rfl, ⟨_, assocFind_insert_self _ _ _, rfl, rfl⟩, rfl, rfl⟩

set_option maxHeartbeats 1600000 in
/-- C5: a LIMIT BUY placed while the close is strictly above the limit
stays pending with no portfolio or cash change, survives a bar whose close
is still above the limit unchanged, and on the first bar whose close is at
or below the limit it is filled at that close adjusted by the slippage
model (BUY pays up) with the flat commission, the fill being propagated
into the referenced Portfolio. -/
theorem limit_buy_pending_then_filled (b : BrokerState) (pf : Portfolio)
    (sym : String) (q l c₁ c₂ : ℚ)
    (hconn : b.is_connected = true)
    (hpend : b.pending_orders = [])
    (hpf : b.portfolio_ref = some pf)
    (hsym : sym ≠ "") (hq : 0 < q)
    (h₁ : l < c₁) (h₂ : c₂ ≤ l)
    (hcash : q * applySlippage b c₂ .buy + b.commission_per_trade ≤
      b.cash_balance) :
    (placeOrder b ⟨sym, .buy, q, .limit, some l, none⟩).2.status =
      "pending" ∧
    (placeOrder b ⟨sym, .buy, q, .limit, some l, none⟩).1.cash_balance =
      b.cash_balance ∧
    (placeOrder b ⟨sym, .buy, q, .limit, some l, none⟩).1.portfolio_ref =
      b.portfolio_ref ∧
    processPendingOrders
        (placeOrder b ⟨sym, .buy, q, .limit, some l, none⟩).1
        [(sym, { close := c₁ })] =
      (placeOrder b ⟨sym, .buy, q, .limit, some l, none⟩).1 ∧
    (∃ r, assocFind
        (processPendingOrders
          (processPendingOrders
            (placeOrder b ⟨sym, .buy, q, .limit, some l, none⟩).1
            [(sym, { close := c₁ })])
          [(sym, { close := c₂ })]).orders (freshOrderId b) = some r ∧
      r.status = .filled ∧
      r.avg_fill_price = some (applySlippage b c₂ .buy)) ∧
    (processPendingOrders
        (processPendingOrders
          (placeOrder b ⟨sym, .buy, q, .limit, some l, none⟩).1
          [(sym, { close := c₁ })])
        [(sym, { close := c₂ })]).portfolio_ref =
      some (pf.update_fill
        { symbol := sym, action := .buy, quantity := q
          price := applySlippage b c₂ .buy
          commission := b.commission_per_trade }) := by
  have hstep1 : placeOrder b ⟨sym, .buy, q, .limit, some l, none⟩ =
      ({ b with
          orders := assocInsert b.orders (freshOrderId b)
            { order := ⟨sym, .buy, q, .limit, some l, none⟩
              status := .pending, filled_quantity := 0
              avg_fill_price := none
              message := "Order pending execution" }
          pending_orders :=
            [(freshOrderId b, ⟨sym, .buy, q, .limit, some l, none⟩)]
          next_order_id := b.next_order_id + 1 },
        { status := "pending", order_id := freshOrderId b
          message := "Order accepted and pending execution"
          filled_quantity := 0, filled_price := none }) := by
    unfold placeOrder
    simp [hconn, hsym, hq, hpend, reduceCtorEq]
  have hnoexec : shouldExecute ⟨sym, .buy, q, .limit, some l, none⟩ c₁ =
      false := by
    simp [shouldExecute, not_le.mpr h₁]
  have hexec : shouldExecute ⟨sym, .buy, q, .limit, some l, none⟩ c₂ =
      true := by
    simp [shouldExecute, h₂]
  have h4 : processPendingOrders
      (placeOrder b ⟨sym, .buy, q, .limit, some l, none⟩).1
      [(sym, { close := c₁ })] =
      (placeOrder b ⟨sym, .buy, q, .limit, some l, none⟩).1 := by
    rw [hstep1]
    unfold processPendingOrders
    rw [if_neg (by simp [hconn])]
    simp only [List.foldl]
    unfold processPendingOne
    simp [assocFind, hnoexec]
  have hfill := executeOrder_buy_fills
    { b with
        orders := assocInsert b.orders (freshOrderId b)
          { order := ⟨sym, .buy, q, .limit, some l, none⟩
            status := .pending, filled_quantity := 0
            avg_fill_price := none
            message := "Order pending execution" }
        pending_orders := assocErase
          [(freshOrderId b, ⟨sym, .buy, q, .limit, some l, none⟩)]
          (freshOrderId b)
        next_order_id := b.next_order_id + 1 }
    (freshOrderId b)
    { symbol := sym, action := .buy, quantity := q
      order_type := .market, price := some c₂, stop_price := none }
    c₂ (applySlippage b c₂ .buy) hconn hsym hq rfl rfl
    (applySlippage_congr _ _ rfl rfl rfl _ _) hcash
  refine ⟨by rw [hstep1], by rw [hstep1], by rw [hstep1], h4, ?_, ?_⟩
  · rw [h4, hstep1]
    unfold processPendingOrders
    rw [if_neg (by simp [hconn])]
    simp only [List.foldl]
    unfold processPendingOne
    simp only [assocFind, if_pos rfl, hexec, ite_true]
    exact hfill.2.1
  · rw [h4, hstep1]
    unfold processPendingOrders
    rw [if_neg (by simp [hconn])]
    simp only [List.foldl]
    unfold processPendingOne
    simp only [assocFind, if_pos rfl, hexec, ite_true]
    refine Eq.trans hfill.2.2.2 ?_
    simp [hpf]

/-- Witness for C5 (Scenario B): LIMIT BUY at 9.50 while the close is
10.00 stays pending; a 9.40 close fills it at 9.40 plus slippage, with
commission, propagated into the portfolio. -/
theorem limit_buy_pending_then_filled_witness :
    (placeOrder sampleBroker
      ⟨"A", .buy, 10, .limit, some (19/2), none⟩).2.status = "pending" ∧
    (placeOrder sampleBroker
      ⟨"A", .buy, 10, .limit, some (19/2), none⟩).1.cash_balance =
      sampleBroker.cash_balance ∧
    (placeOrder sampleBroker
      ⟨"A", .buy, 10, .limit, some (19/2), none⟩).1.portfolio_ref =
      sampleBroker.portfolio_ref ∧
    processPendingOrders
        (placeOrder sampleBroker
          ⟨"A", .buy, 10, .limit, some (19/2), none⟩).1
        [("A", { close := 10 })] =
      (placeOrder sampleBroker
        ⟨"A", .buy, 10, .limit, some (19/2), none⟩).1 ∧
    (∃ r, assocFind
        (processPendingOrders
          (processPendingOrders
            (placeOrder sampleBroker
              ⟨"A", .buy, 10, .limit, some (19/2), none⟩).1
            [("A", { close := 10 })])
          [("A", { close := 47/5 })]).orders
        (freshOrderId sampleBroker) = some r ∧
      r.status = .filled ∧
      r.avg_fill_price = some (applySlippage sampleBroker (47/5) .buy)) ∧
    (processPendingOrders
        (processPendingOrders
          (placeOrder sampleBroker
            ⟨"A", .buy, 10, .limit, some (19/2), none⟩).1
          [("A", { close := 10 })])
        [("A", { close := 47/5 })]).portfolio_ref =
      some (emptyPortfolio.update_fill
        { symbol := "A", action := .buy, quantity := 10
          price := applySlippage sampleBroker (47/5) .buy
          commission := sampleBroker.commission_per_trade }) :=
  limit_buy_pending_then_filled sampleBroker emptyPortfolio "A" 10 (19/2)
    10 (47/5) rfl rfl rfl (by decide) (by norm_num) (by norm_num)
    (by norm_num)
    (by norm_num [sampleBroker, applySlippage, slippageModel_fixed_ne_none])

/-- C9: any exception raised by the broker's `place_order` call — modelled
as an `Except.error` result of the duck-typed broker function — is caught
inside `process_signal` and converted into a returned result with status
`failed` carrying the exception message; `process_signal` returns a plain
result, so no exception from the placement step propagates out of it. -/
theorem process_signal_catches_broker_exception (rm : Option RiskMgrI)
    (place : HSignal → Except String HResult) (signal : HSignal)
    (o : HSignal) (e : String)
    (hreach : placedOrder rm signal = some o)
    (hexc : place o = Except.error e) :
    processSignal rm place signal =
      { status := "failed"
        message := "Exception during order placement: " ++ e } := by
  unfold processSignal
  unfold placedOrder at hreach
  cases hprep : prepareOrder rm signal with
  | inl r =>
    rw [hprep] at hreach
    exact absurd hreach (by simp)
  | inr order =>
    rw [hprep] at hreach
    simp only [Option.some.injEq] at hreach
    subst hreach
    simp only [hprep]
    rw [hexc]

/-- Witness for C9: with a broker stub that raises, `process_signal`
returns the failed result carrying the exception message. -/
theorem process_signal_catches_broker_exception_witness :
    processSignal none (fun _ => Except.error "boom")
      { action := .buy, symbol := "A", quantity := some 10
        price := some 10, order_type := some "MARKET", reason := none } =
      { status := "failed"
        message := "Exception during order placement: " ++ "boom" } :=
  process_signal_catches_broker_exception none (fun _ => Except.error "boom")
    { action := .buy, symbol := "A", quantity := some 10
      price := some 10, order_type := some "MARKET", reason := none }
    { action := .buy, symbol := "A", quantity := some 10
      price := some 10, order_type := some "MARKET", reason := none }
    "boom" (by rfl) rfl

end QuantStock